import Mathlib

/-!
Shallow embedding of `render_static/engine.py` (`StaticTemplateEngine`) and
proofs about its behavior.

Python dictionaries are modelled as insertion-ordered association lists
(`List (String × V)`) with the usual CPython semantics: assignment to an
existing key replaces the value in place, assignment to a new key appends,
`d.update(u)` folds assignments of `u` into `d`, and `{**a, **b}` builds a
fresh dict from the entries of `a` followed by the entries of `b`.
Filesystem effects (`os.makedirs`, writing the file) are not modelled; the
rendering step is represented by the data it computes: the template object
whose `render` is called, the destination path, and the context dictionary
passed to `render`.
-/

namespace RenderStatic

/-- Model of a generic Python value occurring in context dictionaries.
`settingsObj` stands for the Django `settings` object. -/
inductive PyVal where
  | settingsObj
  | int (n : Int)
  | str (s : String)
deriving DecidableEq, Repr

/-- Model of a Python context dictionary: insertion-ordered association list. -/
abbrev Ctx := List (String × PyVal)

/-- Lookup of a key in a dict (first binding wins; dicts built by
`dictInsert` keep keys unique). Models `d[k]` / `d.get(k)`. -/
def dictGet {V : Type} (d : List (String × V)) (k : String) : Option V :=
  match d with
  | [] => none
  | (k', v) :: rest => if k' = k then some v else dictGet rest k

/-- Assignment `d[k] = v` with CPython semantics: an existing key keeps its
position and gets the new value, a new key is appended at the end. -/
def dictInsert {V : Type} (d : List (String × V)) (k : String) (v : V) :
    List (String × V) :=
  match d with
  | [] => [(k, v)]
  | (k', v') :: rest =>
      if k' = k then (k', v) :: rest else (k', v') :: dictInsert rest k v

/-- Model of `d.update(u)`: assign every entry of `u` into `d` in order. -/
def dictUpdate {V : Type} (d u : List (String × V)) : List (String × V) :=
  u.foldl (fun acc kv => dictInsert acc kv.1 kv.2) d

/-- Model of `{**a, **b}`: for dicts with unique keys this equals updating a
copy of `a` with `b`. -/
def dictMerge {V : Type} (a b : List (String × V)) : List (String × V) :=
  dictUpdate a b

/-- Keys of a dict, in insertion order. -/
def dictKeys {V : Type} (d : List (String × V)) : List String :=
  d.map Prod.fst

/-- Errors raised by the engine: `ImproperlyConfigured(msg)` and
`TemplateDoesNotExist(name, chain=chain)`, the latter carrying the per-backend
miss reasons collected during lookup. -/
inductive Err where
  | improperlyConfigured (msg : String)
  | templateDoesNotExist (name : String) (chain : List String)
deriving DecidableEq, Repr

/-- Model of a `pathlib.Path`: absolute flag plus path segments. -/
structure PPath where
  isAbs : Bool
  segs : List String
deriving DecidableEq, Repr

/-- Model of `p / s`: append one component. -/
def PPath.join (p : PPath) (s : String) : PPath :=
  { p with segs := p.segs ++ [s] }

/-- Model of the Python value supplied for a template's `dest` configuration
parameter: a `str` holding a path, a `Path`, or a value of any other type
(whose type name is recorded for the error message). -/
inductive PyDest where
  | pyStr (path : PPath)
  | pyPath (path : PPath)
  | pyOther (typeName : String)
deriving DecidableEq, Repr

/-- Model of the Python value supplied for a `context` configuration
parameter: either a dict or a value of some other type. -/
inductive CtxArg where
  | dict (d : Ctx)
  | other (typeName : String)
deriving DecidableEq, Repr

/-- Cached content of a `StaticTemplateEngine.TemplateConfig` instance:
`name`, `dest_` (validated absolute path or `None`), and the instance
attribute `context_` when a context was configured for the template.
`ownContext = none` means the instance falls back to the class-level
attribute `TemplateConfig.context_` (an initially empty shared dict). -/
structure TemplateCfg where
  name : String
  dest : Option PPath
  ownContext : Option Ctx
deriving DecidableEq, Repr

/-- Model of `TemplateConfig.__init__(name, dest, context)`: checks that a
supplied `dest` is a `str` or `Path` and absolute, and that a supplied
`context` is a dictionary; raises `ImproperlyConfigured` otherwise. -/
def TemplateConfig.make (name : String) (dest : Option PyDest)
    (context : Option CtxArg) : Except Err TemplateCfg := do
  let dest_ : Option PPath ←
    match dest with
    | none => pure none
    | some (.pyStr p) =>
        if p.isAbs then pure (some p)
        else .error (.improperlyConfigured
          ("In STATIC_TEMPLATES, template " ++ name ++ " dest must be absolute!"))
    | some (.pyPath p) =>
        if p.isAbs then pure (some p)
        else .error (.improperlyConfigured
          ("In STATIC_TEMPLATES, template " ++ name ++ " dest must be absolute!"))
    | some (.pyOther t) =>
        .error (.improperlyConfigured
          ("Template " ++ name ++ " \x27dest\x27 parameter in STATIC_TEMPLATES " ++
           "must be a string or path-like object, not " ++ t))
  let context_ : Option Ctx ←
    match context with
    | none => pure none
    | some (.dict d) => pure (some d)
    | some (.other t) =>
        .error (.improperlyConfigured
          ("Template " ++ name ++ " \x27context\x27 parameter in STATIC_TEMPLATES " ++
           "must be a dictionary, not " ++ t))
  pure { name := name, dest := dest_, ownContext := context_ }

/-- Model of one entry of the `ENGINES` list in a `STATIC_TEMPLATES`
configuration. `backend` is the dotted import path from the `BACKEND` key;
`name` is the optional explicit `NAME`; the remaining keys get defaults
`DIRS = []`, `APP_DIRS = False`, `OPTIONS = {}` when absent. -/
structure BackendDef where
  backend : String
  name : Option String := none
  dirs : List String := []
  appDirs : Bool := false
  loaders : List String := []
  builtins : List String := []
deriving DecidableEq, Repr

/-- Helper computing the substring of `cs` after its last dot. -/
def lastDotSegment : List Char → List Char → List Char
  | [], cur => cur
  | c :: rest, cur =>
      if c = '.' then lastDotSegment rest []
      else lastDotSegment rest (cur ++ [c])

/-- Model of `backend['BACKEND'].rsplit('.', 2)[-1]`: the last dot-separated
segment of the dotted import path (the whole string when it has no dot). -/
def defaultAlias (backend : String) : String :=
  String.mk (lastDotSegment backend.data [])

/-- Alias a backend definition resolves to: the explicit `NAME` when given,
otherwise the default derived from `BACKEND` (from
`backend = {'NAME': default_name, ..., **backend}`). -/
def resolveAlias (b : BackendDef) : String :=
  b.name.getD (defaultAlias b.backend)

/-- Model of the `backend_names` list accumulated by the `engines` property:
the resolved alias of each definition, in declared order. -/
def backendAliases (defs : List BackendDef) : List String :=
  defs.map resolveAlias

/-- Distinct elements of a list in order of first occurrence: the iteration
order of the keys of `collections.Counter(backend_names)`. -/
def distinctFirst (l : List String) : List String :=
  l.foldl (fun acc a => if acc.contains a then acc else acc ++ [a]) []

/-- Stable insertion of `a` into a list sorted by strictly descending
`countOf`: `a` goes before the first element with a strictly smaller count,
after any earlier tie. -/
def insertDesc (countOf : String → Nat) (a : String) : List String → List String
  | [] => [a]
  | b :: rest =>
      if countOf b < countOf a then a :: b :: rest
      else b :: insertDesc countOf a rest

/-- Stable sort by descending count: the ordering `Counter.most_common`
produces (CPython sorts stably by count, descending, preserving the
insertion order of ties). -/
def sortByCountDesc (countOf : String → Nat) (l : List String) : List String :=
  l.foldr (insertDesc countOf) []

/-- Model of `[alias for alias, count in counts.most_common() if count > 1]`:
Counter keys stably sorted by descending count, keeping those with count
greater than one. -/
def duplicateAliases (defs : List BackendDef) : List String :=
  let names := backendAliases defs
  (sortByCountDesc (fun a => names.count a) (distinctFirst names)).filter
    (fun a => 1 < names.count a)

/-- Error message raised by the `engines` property when aliases repeat:
the duplicated aliases joined by a comma and a space. -/
def dupErrMsg (dups : List String) : String :=
  "Template engine aliases are not unique, duplicates: " ++
  String.intercalate ", " dups ++
  ". Set a unique NAME for each engine in settings.STATIC_TEMPLATES."

/-- Model of the alias-collection part of the `engines` property: build the
alias/definition pairs, raise `ImproperlyConfigured` listing the duplicated
aliases when any alias repeats. (Backend instantiation via `import_string`
is outside the engine module and left abstract.) -/
def enginesCheck (defs : List BackendDef) :
    Except Err (List (String × BackendDef)) :=
  let dups := duplicateAliases defs
  if dups ≠ [] then .error (.improperlyConfigured (dupErrMsg dups))
  else .ok (defs.map (fun b => (resolveAlias b, b)))

/-- Raw value stored under one template name in the `templates` section of
the configuration: the keyword arguments handed to `TemplateConfig`. -/
structure TemplateDef where
  dest : Option PyDest := none
  context : Option CtxArg := none
deriving DecidableEq, Repr

/-- Python value stored at a root key of the `STATIC_TEMPLATES` configuration
mapping: an iterable of engine definitions, a dict (for `context`), a mapping
of template names to template definitions, or a value of any other type. -/
inductive RootVal where
  | engineList (defs : List BackendDef)
  | ctxDict (d : Ctx)
  | ctxOther (typeName : String)
  | templateMap (ts : List (String × TemplateDef))
  | otherVal
deriving Repr

/-- Model of the root `STATIC_TEMPLATES` configuration mapping. -/
abbrev RootConfig := List (String × RootVal)

/-- Root keys the `config` property recognizes. -/
def allowedRootKeys : List String := ["ENGINES", "templates", "context"]

/-- Model of `[key for key in self.config_.keys() if key not in
['ENGINES', 'templates', 'context']]`. -/
def unrecognizedKeys (cfg : RootConfig) : List String :=
  (dictKeys cfg).filter (fun key => ¬ allowedRootKeys.contains key)

/-- Python `repr` of a list of strings, as interpolated into the f-string of
the unrecognized-keys error message. -/
def pyListRepr (ks : List String) : String :=
  "[" ++ String.intercalate ", " (ks.map (fun k => "\x27" ++ k ++ "\x27")) ++ "]"

/-- Model of the validation in the `config` cached property: raise
`ImproperlyConfigured` naming the unrecognized root keys when any exist,
otherwise return the configuration unchanged. -/
def checkRootKeys (cfg : RootConfig) : Except Err RootConfig :=
  if unrecognizedKeys cfg ≠ [] then
    .error (.improperlyConfigured
      ("Unrecognized STATIC_TEMPLATES configuration directives: " ++
       pyListRepr (unrecognizedKeys cfg)))
  else .ok cfg

/-- Model of `StaticTemplateEngine.DEFAULT_ENGINE_CONFIG`. -/
def DEFAULT_ENGINE_CONFIG : List BackendDef :=
  [{ backend := "render_static.backends.StaticDjangoTemplates"
     dirs := []
     loaders := ["render_static.loaders.StaticAppDirectoriesLoader"]
     builtins := ["render_static.templatetags.render_static"] }]

/-- Model of `{'settings': settings, **global_ctx}`. -/
def mkGlobalContext (global_ctx : Ctx) : Ctx :=
  dictMerge [("settings", PyVal.settingsObj)] global_ctx

/-- Model of the `context` cached property: fetch `config.get('context', {})`,
require it to be a dictionary, and prepend the reserved `settings` entry. -/
def contextProperty (cfg : RootConfig) : Except Err Ctx :=
  match (dictGet cfg "context").getD (.ctxDict []) with
  | .ctxDict d => .ok (mkGlobalContext d)
  | _ => .error (.improperlyConfigured
      ("STATIC_TEMPLATES \x27context\x27 configuration directive must be a " ++
       "dictionary!"))

/-- Model of the `templates` cached property: build a `TemplateConfig` per
entry of `config.get('templates', {})`. -/
def templatesProperty (cfg : RootConfig) : Except Err (List (String × TemplateCfg)) :=
  match (dictGet cfg "templates").getD (.templateMap []) with
  | .templateMap ts =>
      ts.foldlM (fun acc nt => do
        let tc ← TemplateConfig.make nt.1 nt.2.dest nt.2.context
        pure (dictInsert acc nt.1 tc)) []
  | _ => .error (.improperlyConfigured "Invalid \x27templates\x27 in STATIC_TEMPLATE!")

/-- Model of the `engines` cached property including its side effect on the
cached configuration: when the validated configuration has no `ENGINES` key,
`self.config['ENGINES'] = self.DEFAULT_ENGINE_CONFIG` is assigned before the
backends are built; a non-iterable `ENGINES` value raises. Returns the
(possibly mutated) cached configuration together with the alias/definition
pairs. -/
def enginesAccess (cfg0 : RootConfig) :
    Except Err (RootConfig × List (String × BackendDef)) :=
  match checkRootKeys cfg0 with
  | .error e => .error e
  | .ok cfg =>
    let cfg :=
      if (dictGet cfg "ENGINES").isNone then
        dictInsert cfg "ENGINES" (.engineList DEFAULT_ENGINE_CONFIG)
      else cfg
    match dictGet cfg "ENGINES" with
    | some (.engineList defs) =>
        (match enginesCheck defs with
         | .error e => .error e
         | .ok engines => .ok (cfg, engines))
    | some _ =>
        .error (.improperlyConfigured
          ("ENGINES in STATIC_TEMPLATES setting must be an iterable containing " ++
           "engine configurations!"))
    | none => .ok (cfg, [])

/-- Model of the `app` attribute a loader may set on a template's origin:
the owning application, with its filesystem path. -/
structure AppInfo where
  path : PPath
deriving DecidableEq, Repr

/-- Model of a loaded template object: `body` identifies the template (it
stands for what `template.render` would produce) and `originApp` models
`getattr(template.origin, 'app', None)`. -/
structure Template where
  body : String
  originApp : Option AppInfo
deriving DecidableEq, Repr

/-- Model of a configured backend instance: `get_template` either returns a
template or raises `TemplateDoesNotExist` carrying a miss reason. -/
structure Backend where
  getTemplate : String → Except String Template

/-- Runtime state of a `StaticTemplateEngine` whose cached properties have
been materialized: `templates` is the cached `templates` property,
`classContext` is the class-level `TemplateConfig.context_` dict shared by
every `TemplateConfig` without a configured context (initially `{}`),
`globalContext` is the cached `context` property, `backends` are the engine
instances in declared precedence order, and `staticRoot` models
`getattr(settings, 'STATIC_ROOT', None)` (with `none` also covering falsy
values). -/
structure EngineState where
  templates : List (String × TemplateCfg)
  classContext : Ctx
  globalContext : Ctx
  backends : List Backend
  staticRoot : Option PPath

/-- Model of `self.templates.get(template_name, TemplateConfig(name=template_name))`. -/
def templateCfgOf (st : EngineState) (templateName : String) : TemplateCfg :=
  (dictGet st.templates templateName).getD
    { name := templateName, dest := none, ownContext := none }

/-- Model of the backend loop of `render_to_disk`: each backend is tried in
precedence order; a success reassigns `template` (the loop has no `break`),
a miss appends its reason to `chain`. -/
def lookupTemplate (backends : List Backend) (templateName : String) :
    Option Template × List String :=
  backends.foldl
    (fun acc engine =>
      match engine.getTemplate templateName with
      | .ok t => (some t, acc.2)
      | .error tdne => (acc.1, acc.2 ++ [tdne]))
    (none, [])

/-- Data computed by a successful `render_to_disk` call: the template object
whose `render` method is invoked, the returned destination path, and the
context dictionary passed to `render`. -/
structure RenderResult where
  template : Template
  dest : PPath
  finalContext : Ctx
deriving DecidableEq, Repr

/-- Error message raised when no destination can be determined for a
template. -/
def noDestErrMsg (templateName : String) : String :=
  "Template " ++ templateName ++ " must either be configured with a " ++
  "\x27dest\x27 or STATIC_ROOT must be defined in settings, because it was " ++
  "not loaded from an app!"

/-- Model of the destination resolution of `render_to_disk` (lines 339-357):
the call-time `dest` argument, else the configured `dest`, else
`Path(app.path) / 'static' / template_name` when the template origin has an
owning app, else `STATIC_ROOT / template_name` when `STATIC_ROOT` is set,
else `ImproperlyConfigured`. -/
def resolveDest (config : TemplateCfg) (app : Option AppInfo)
    (staticRoot : Option PPath) (templateName : String) (dest : Option PPath) :
    Except Err PPath :=
  let dest := match dest with
    | some d => some d
    | none => config.dest
  match dest with
  | some d => .ok d
  | none =>
    match app with
    | some a => .ok ((a.path.join "static").join templateName)
    | none =>
      match staticRoot with
      | some root => .ok (root.join templateName)
      | none => .error (.improperlyConfigured (noDestErrMsg templateName))

/-- Model of `ctx = config.context; if context is not None: ctx.update(context)`
(lines 362-364). `config.context` is a reference to the cached dict, so the
update mutates engine state: the cached `TemplateConfig`'s own context dict
when the template has one, the shared class-level `TemplateConfig.context_`
dict otherwise (also when the name has no cached config at all, since the
fresh default `TemplateConfig` falls back to the class attribute). Returns
the context used for rendering and the state after the call. -/
def applyContextOverride (st : EngineState) (templateName : String)
    (context : Option Ctx) : Ctx × EngineState :=
  let baseCtx := (templateCfgOf st templateName).ownContext.getD st.classContext
  match context with
  | none => (baseCtx, st)
  | some ov =>
    let updated := dictUpdate baseCtx ov
    match dictGet st.templates templateName with
    | some cfg =>
      match cfg.ownContext with
      | some _ =>
        let newCfg : TemplateCfg := { cfg with ownContext := some updated }
        let newTemplates := dictInsert st.templates templateName newCfg
        (updated, { st with templates := newTemplates })
      | none => (updated, { st with classContext := updated })
    | none => (updated, { st with classContext := updated })

/-- Model of `StaticTemplateEngine.render_to_disk(template_name, context,
dest)`. Returns the render data together with the engine state after the
call, which differs from the input state exactly when the call-time `context`
is not `None` (see `applyContextOverride`). Filesystem writes are not
modelled. -/
def renderToDisk (st : EngineState) (templateName : String)
    (context : Option Ctx) (dest : Option PPath) :
    Except Err (RenderResult × EngineState) :=
  let config := templateCfgOf st templateName
  match lookupTemplate st.backends templateName with
  | (none, chain) => .error (.templateDoesNotExist templateName chain)
  | (some template, _) =>
    match resolveDest config template.originApp st.staticRoot templateName dest with
    | .error e => .error e
    | .ok dest =>
      match applyContextOverride st templateName context with
      | (ctx, st') =>
        .ok ({ template := template
               dest := dest
               finalContext := dictMerge st'.globalContext ctx }, st')

/-- Miss reason carried by the `TemplateDoesNotExist` a backend raised
(the entries appended to `chain`). -/
def missReason : Except String Template → String
  | .error e => e
  | .ok _ => ""

/-- Engine state of a freshly constructed `StaticTemplateEngine` whose
configuration declares global context `g` and one template entry binding
`name` to per-template context `p`: the cached `context` property is
`{'settings': settings, **g}`, the class-level shared context dict is still
empty, and no `dest` is configured. -/
def freshEngine (g : Ctx) (name : String) (p : Ctx) (backends : List Backend)
    (staticRoot : Option PPath) : EngineState :=
  { templates := [(name, { name := name, dest := none, ownContext := some p })]
    classContext := []
    globalContext := mkGlobalContext g
    backends := backends
    staticRoot := staticRoot }

/-- Template fixture standing for the version of `page.html` held by the
first (highest-precedence) backend. -/
def tmplFromFirst : Template := { body := "from-first-backend", originApp := none }

/-- Template fixture standing for the version of `page.html` held by the
second backend. -/
def tmplFromSecond : Template := { body := "from-second-backend", originApp := none }

/-- Backend fixture resolving only `page.html`, to `tmplFromFirst`. -/
def firstBackend : Backend :=
  ⟨fun n => if n = "page.html" then .ok tmplFromFirst else .error "miss-first"⟩

/-- Backend fixture resolving only `page.html`, to `tmplFromSecond`. -/
def secondBackend : Backend :=
  ⟨fun n => if n = "page.html" then .ok tmplFromSecond else .error "miss-second"⟩

/-- Engine fixture with two backends, in declared precedence order, that both
resolve `page.html`. -/
def twoBackendState : EngineState :=
  { templates := []
    classContext := []
    globalContext := mkGlobalContext []
    backends := [firstBackend, secondBackend]
    staticRoot := some { isAbs := true, segs := ["static_root"] } }

/-- Backend fixture resolving every template name. -/
def anyBackend : Backend :=
  ⟨fun _ => .ok { body := "resolved", originApp := none }⟩

/-- Engine fixture for the mutation scenario: `configured.html` has a cached
per-template context dict, `plain.html` has no entry and therefore shares
the class-level default context dict. -/
def mutationState : EngineState :=
  { templates := [("configured.html",
      { name := "configured.html", dest := none,
        ownContext := some [("b", PyVal.int 3)] })]
    classContext := []
    globalContext := mkGlobalContext [("a", PyVal.int 1)]
    backends := [anyBackend]
    staticRoot := some { isAbs := true, segs := ["static_root"] } }

/-- Destination path fixture used to make render calls succeed. -/
def outPath : PPath := { isAbs := true, segs := ["out", "rendered.html"] }

/-- Template fixture resolved for `app/t.html`. -/
def c3Template : Template := { body := "t", originApp := none }

/-- Backend fixture resolving only `app/t.html`, to `c3Template`. -/
def c3Backend : Backend :=
  ⟨fun n => if n = "app/t.html" then .ok c3Template else .error "miss"⟩

/-- Configured-destination fixture for the precedence scenario. -/
def configuredDest : PPath := { isAbs := true, segs := ["configured", "t.html"] }

/-- Template fixture owned by an app, as set by an app-directories loader. -/
def appTemplate : Template :=
  { body := "app-owned", originApp := some { path := { isAbs := true, segs := ["proj", "app"] } } }

/-- Backend fixture resolving only `t.html`, to a template with no owning
app. -/
def plainT : Template := { body := "plain", originApp := none }

/-- Backend fixture resolving `t.html` to `plainT`. -/
def plainBackend : Backend :=
  ⟨fun n => if n = "t.html" then .ok plainT else .error "miss-plain"⟩

/-- Engine fixture with a configured `dest` for `t.html`. -/
def destState : EngineState :=
  { templates := [("t.html",
      { name := "t.html", dest := some configuredDest, ownContext := none })]
    classContext := []
    globalContext := mkGlobalContext []
    backends := [plainBackend]
    staticRoot := some { isAbs := true, segs := ["static_root"] } }

/-- Engine fixture with no configured `dest`, a template without an owning
app, and no `STATIC_ROOT`. -/
def noDestState : EngineState :=
  { templates := []
    classContext := []
    globalContext := mkGlobalContext []
    backends := [plainBackend]
    staticRoot := none }

/-- Backend-definition fixture whose two entries derive the same default
alias `Eng` from their `BACKEND` dotted paths. -/
def dupDefs : List BackendDef :=
  [{ backend := "pkg.alpha.Eng" }, { backend := "other.Eng" }]

/-- Configuration fixture with an unrecognized root key. -/
def cfgBadKey : RootConfig := [("bogus", RootVal.otherVal)]

/-- Configuration fixture with only permitted root keys. -/
def cfgGoodKeys : RootConfig :=
  [("ENGINES", RootVal.engineList DEFAULT_ENGINE_CONFIG),
   ("templates", RootVal.templateMap []),
   ("context", RootVal.ctxDict [])]

/-- Engine fixture whose two backends both miss every template name. -/
def twoMissState : EngineState :=
  { templates := []
    classContext := []
    globalContext := mkGlobalContext []
    backends :=
      [⟨fun _ => .error "miss-first"⟩, ⟨fun _ => .error "miss-second"⟩]
    staticRoot := none }

/-- Configuration fixture without an `ENGINES` key. -/
def cfgNoEngines : RootConfig := [("context", RootVal.ctxDict [])]

section DictLemmas

variable {V : Type}

theorem dictGet_nil (k : String) : dictGet ([] : List (String × V)) k = none := rfl

theorem dictGet_cons (k0 : String) (v0 : V) (rest : List (String × V)) (k : String) :
    dictGet ((k0, v0) :: rest) k = if k0 = k then some v0 else dictGet rest k := rfl

theorem dictInsert_cons_eq (rest : List (String × V)) (k : String) (v v0 : V) :
    dictInsert ((k, v0) :: rest) k v = (k, v) :: rest := by
  simp [dictInsert]

theorem dictInsert_cons_ne (rest : List (String × V)) (k0 k : String) (v v0 : V)
    (h : k0 ≠ k) : dictInsert ((k0, v0) :: rest) k v = (k0, v0) :: dictInsert rest k v := by
  simp [dictInsert, h]

theorem dictKeys_nil : dictKeys ([] : List (String × V)) = [] := rfl

theorem dictKeys_cons (k0 : String) (v0 : V) (rest : List (String × V)) :
    dictKeys ((k0, v0) :: rest) = k0 :: dictKeys rest := rfl

theorem dictGet_insert (d : List (String × V)) (k k' : String) (v : V) :
    dictGet (dictInsert d k v) k' = if k = k' then some v else dictGet d k' := by
  induction d with
  | nil => simp [dictInsert, dictGet]
  | cons hd tl ih =>
    obtain ⟨k0, v0⟩ := hd
    by_cases h0 : k0 = k
    · subst h0
      rw [dictInsert_cons_eq, dictGet_cons, dictGet_cons]
      by_cases h1 : k0 = k'
      · simp [h1]
      · simp [h1]
    · rw [dictInsert_cons_ne tl k0 k v v0 h0, dictGet_cons, dictGet_cons, ih]
      by_cases h1 : k0 = k'
      · subst h1
        have hk : ¬ k0 = k := h0
        have hk' : ¬ k = k0 := fun h => h0 h.symm
        simp [hk']
      · simp [h1]

theorem mem_dictKeys_insert (d : List (String × V)) (k a : String) (v : V) :
    a ∈ dictKeys (dictInsert d k v) ↔ a ∈ dictKeys d ∨ a = k := by
  induction d with
  | nil => simp [dictInsert, dictKeys]
  | cons hd tl ih =>
    obtain ⟨k0, v0⟩ := hd
    by_cases h0 : k0 = k
    · subst h0
      rw [dictInsert_cons_eq, dictKeys_cons, dictKeys_cons]
      simp only [List.mem_cons]
      tauto
    · rw [dictInsert_cons_ne tl k0 k v v0 h0, dictKeys_cons, dictKeys_cons]
      simp only [List.mem_cons, ih]
      tauto

theorem dictGet_eq_none_iff (d : List (String × V)) (k : String) :
    dictGet d k = none ↔ k ∉ dictKeys d := by
  induction d with
  | nil => simp [dictGet, dictKeys]
  | cons hd tl ih =>
    obtain ⟨k0, v0⟩ := hd
    rw [dictGet_cons, dictKeys_cons]
    by_cases h0 : k0 = k
    · subst h0
      simp
    · rw [if_neg h0, ih]
      simp only [List.mem_cons]
      constructor
      · intro h hmem
        rcases hmem with h1 | h1
        · exact h0 h1.symm
        · exact h h1
      · intro h h1
        exact h (Or.inr h1)

theorem nodup_dictKeys_insert (d : List (String × V)) (k : String) (v : V)
    (hd : (dictKeys d).Nodup) : (dictKeys (dictInsert d k v)).Nodup := by
  induction d with
  | nil => simp [dictInsert, dictKeys]
  | cons hd0 tl ih =>
    obtain ⟨k0, v0⟩ := hd0
    rw [dictKeys_cons, List.nodup_cons] at hd
    by_cases h0 : k0 = k
    · subst h0
      rw [dictInsert_cons_eq, dictKeys_cons, List.nodup_cons]
      exact hd
    · rw [dictInsert_cons_ne tl k0 k v v0 h0, dictKeys_cons, List.nodup_cons]
      refine ⟨?_, ih hd.2⟩
      intro hmem
      rcases (mem_dictKeys_insert tl k k0 v).1 hmem with h | h
      · exact hd.1 h
      · exact h0 h

theorem nodup_dictKeys_update (d u : List (String × V))
    (hd : (dictKeys d).Nodup) : (dictKeys (dictUpdate d u)).Nodup := by
  induction u generalizing d with
  | nil => exact hd
  | cons hd0 tl ih =>
    obtain ⟨k0, v0⟩ := hd0
    exact ih (dictInsert d k0 v0) (nodup_dictKeys_insert d k0 v0 hd)

theorem dictGet_update (d u : List (String × V)) (k : String)
    (hu : (dictKeys u).Nodup) :
    dictGet (dictUpdate d u) k = (dictGet u k).or (dictGet d k) := by
  induction u generalizing d with
  | nil => simp [dictUpdate, dictGet]
  | cons hd0 tl ih =>
    obtain ⟨k0, v0⟩ := hd0
    simp only [dictKeys, List.map_cons, List.nodup_cons] at hu
    have step : dictUpdate d ((k0, v0) :: tl) = dictUpdate (dictInsert d k0 v0) tl := rfl
    rw [step, ih (dictInsert d k0 v0) hu.2, dictGet_insert]
    by_cases h0 : k0 = k
    · subst h0
      have : dictGet tl k0 = none := (dictGet_eq_none_iff tl k0).2 hu.1
      simp [dictGet, this]
    · simp [dictGet, h0]

end DictLemmas

section ListLemmas

theorem mem_distinctFirst_aux (l : List String) (acc : List String) (a : String) :
    (a ∈ l.foldl (fun acc x => if acc.contains x then acc else acc ++ [x]) acc) ↔
      a ∈ acc ∨ a ∈ l := by
  induction l generalizing acc with
  | nil => simp
  | cons x xs ih =>
    simp only [List.foldl_cons]
    rw [ih]
    by_cases hx : acc.contains x
    · have hx' : x ∈ acc := by simpa using hx
      simp only [if_pos hx, List.mem_cons]
      constructor
      · rintro (h | h)
        · exact Or.inl h
        · exact Or.inr (Or.inr h)
      · rintro (h | h | h)
        · exact Or.inl h
        · exact Or.inl (h ▸ hx')
        · exact Or.inr h
    · simp only [if_neg hx, List.mem_append, List.mem_singleton, List.mem_cons]
      tauto

theorem mem_distinctFirst (l : List String) (a : String) :
    a ∈ distinctFirst l ↔ a ∈ l := by
  unfold distinctFirst
  rw [mem_distinctFirst_aux]
  simp

theorem mem_insertDesc (countOf : String → Nat) (x a : String) (l : List String) :
    a ∈ insertDesc countOf x l ↔ a = x ∨ a ∈ l := by
  induction l with
  | nil => simp [insertDesc]
  | cons b rest ih =>
    by_cases hb : countOf b < countOf x
    · simp [insertDesc, if_pos hb]
    · simp only [insertDesc, if_neg hb, List.mem_cons, ih]
      tauto

theorem mem_sortByCountDesc (countOf : String → Nat) (l : List String) (a : String) :
    a ∈ sortByCountDesc countOf l ↔ a ∈ l := by
  induction l with
  | nil => simp [sortByCountDesc]
  | cons b rest ih =>
    unfold sortByCountDesc at *
    simp only [List.foldr_cons, mem_insertDesc, List.mem_cons, ih]

theorem lookupTemplate_all_miss (backends : List Backend) (templateName : String)
    (h : ∀ b ∈ backends, ∀ t, b.getTemplate templateName ≠ .ok t) :
    lookupTemplate backends templateName =
      (none, backends.map (fun b => missReason (b.getTemplate templateName))) := by
  unfold lookupTemplate
  suffices hgen : ∀ (bs : List Backend) (c0 : List String),
      (∀ b ∈ bs, ∀ t, b.getTemplate templateName ≠ .ok t) →
      bs.foldl (fun acc engine =>
        match engine.getTemplate templateName with
        | .ok t => (some t, acc.2)
        | .error tdne => (acc.1, acc.2 ++ [tdne]))
        ((none : Option Template), c0) =
      (none, c0 ++ bs.map (fun b => missReason (b.getTemplate templateName))) by
    simpa using hgen backends [] h
  intro bs
  induction bs with
  | nil => intro c0 _; simp
  | cons b rest ih =>
    intro c0 hmiss
    simp only [List.foldl_cons, List.map_cons]
    cases hb : b.getTemplate templateName with
    | ok t => exact absurd hb (hmiss b (List.mem_cons_self b rest) t)
    | error e =>
      have := ih (c0 ++ [e]) (fun b hb t => hmiss b (List.mem_cons_of_mem _ hb) t)
      simp only [this, hb, missReason]
      simp

end ListLemmas

/-- Claim C1 (code bug): with two backends in declared precedence order that
both resolve `page.html`, `render_to_disk` renders the template object
returned by the SECOND (last) resolving backend, not the first: the lookup
loop has no `break`, so every success reassigns `template`. This contradicts
the claim and the function's own docstring ("Render the template of the
highest precedence for the given template name"). -/
theorem renderToDisk_renders_last_resolving_backend :
    (renderToDisk twoBackendState "page.html" none none).toOption.map
        (fun r => r.1.template) = some tmplFromSecond ∧
    tmplFromSecond ≠ tmplFromFirst :=
  ⟨rfl, by decide⟩

/-- Claim C2 (code bug): a `render_to_disk` call with a non-None context
override mutates the cached engine state: `ctx = config.context;
ctx.update(context)` updates the cached per-template context dict in place
(here `configured.html` goes from `{b: 3}` to `{b: 3, c: 5}`), and for a
template with no configured context it updates the shared class-level
default dict (here from `{}` to `{c: 5}`). -/
theorem renderToDisk_context_override_mutates_cached_state :
    ((renderToDisk mutationState "configured.html"
        (some [("c", PyVal.int 5)]) (some outPath)).toOption.map
        (fun r => (dictGet r.2.templates "configured.html").map TemplateCfg.ownContext)
      = some (some (some [("b", PyVal.int 3), ("c", PyVal.int 5)]))) ∧
    ((dictGet mutationState.templates "configured.html").map TemplateCfg.ownContext
      = some (some [("b", PyVal.int 3)])) ∧
    ((renderToDisk mutationState "plain.html"
        (some [("c", PyVal.int 5)]) (some outPath)).toOption.map
        (fun r => r.2.classContext) = some [("c", PyVal.int 5)]) ∧
    mutationState.classContext = [] :=
  ⟨rfl, rfl, rfl, rfl⟩

/-- Claim C7: when no configured backend resolves the template name,
`render_to_disk` raises `TemplateDoesNotExist` whose chain holds, in backend
precedence order, exactly the miss reason of each configured backend. -/
theorem renderToDisk_not_found_chain (st : EngineState) (templateName : String)
    (context : Option Ctx) (dest : Option PPath)
    (h : ∀ b ∈ st.backends, ∀ t, b.getTemplate templateName ≠ .ok t) :
    renderToDisk st templateName context dest =
      .error (.templateDoesNotExist templateName
        (st.backends.map (fun b => missReason (b.getTemplate templateName)))) ∧
    (st.backends.map (fun b => missReason (b.getTemplate templateName))).length =
      st.backends.length := by
  refine ⟨?_, by simp⟩
  have hl := lookupTemplate_all_miss st.backends templateName h
  unfold renderToDisk
  rw [hl]

/-- Witness for claim C7 at a concrete engine with two backends that both
miss: the chain has one entry per backend, in precedence order. -/
theorem renderToDisk_not_found_chain_witness :
    renderToDisk twoMissState "nope.html" none none =
      .error (.templateDoesNotExist "nope.html" ["miss-first", "miss-second"]) ∧
    (["miss-first", "miss-second"] : List String).length =
      twoMissState.backends.length :=
  (renderToDisk_not_found_chain twoMissState "nope.html" none none
    (by
      intro b hb t
      rcases List.mem_cons.mp hb with rfl | hb
      · exact fun hc => Except.noConfusion hc
      · rcases List.mem_cons.mp hb with rfl | hb
        · exact fun hc => Except.noConfusion hc
        · exact absurd hb (List.not_mem_nil b)))

/-- Claim C9 (counterexample): when the caller-declared global context itself
declares `settings`, the computed global context's `settings` entry is the
caller's value, not the handle to host configuration: `{'settings': settings,
**global_ctx}` lets `global_ctx` override the reserved entry. -/
theorem contextProperty_settings_overridden :
    contextProperty [("context", RootVal.ctxDict [("settings", PyVal.int 0)])] =
      .ok [("settings", PyVal.int 0)] ∧
    PyVal.int 0 ≠ PyVal.settingsObj :=
  ⟨rfl, by decide⟩

/-- Claim C9 (amended): the computed global context always contains a
`settings` entry; its value is the handle to host configuration whenever the
caller-declared global context does not itself declare `settings`, and every
caller-declared entry is present with the caller's value (so a declared
`settings` key overrides the reserved entry). -/
theorem contextProperty_settings_entry (cfg : RootConfig) (d : Ctx)
    (hd : (dictKeys d).Nodup)
    (hctx : dictGet cfg "context" = some (.ctxDict d)) :
    contextProperty cfg = .ok (mkGlobalContext d) ∧
    (dictGet (mkGlobalContext d) "settings").isSome ∧
    ("settings" ∉ dictKeys d →
      dictGet (mkGlobalContext d) "settings" = some PyVal.settingsObj) ∧
    (∀ k v, dictGet d k = some v → dictGet (mkGlobalContext d) k = some v) := by
  have hget : ∀ k, dictGet (mkGlobalContext d) k =
      (dictGet d k).or (dictGet [("settings", PyVal.settingsObj)] k) := by
    intro k
    unfold mkGlobalContext dictMerge
    exact dictGet_update _ d k hd
  refine ⟨?_, ?_, ?_, ?_⟩
  · unfold contextProperty
    rw [hctx]
    rfl
  · rw [hget]
    cases hs : dictGet d "settings" <;> simp [dictGet]
  · intro hnot
    rw [hget, (dictGet_eq_none_iff d "settings").mpr hnot]
    simp [dictGet]
  · intro k v hk
    rw [hget, hk]
    simp

/-- Witness for the amended claim C9 at a concrete configuration whose
declared global context is `{a: 1}`. -/
theorem contextProperty_settings_entry_witness :
    contextProperty [("context", RootVal.ctxDict [("a", PyVal.int 1)])] =
      .ok (mkGlobalContext [("a", PyVal.int 1)]) ∧
    (dictGet (mkGlobalContext [("a", PyVal.int 1)]) "settings").isSome ∧
    ("settings" ∉ dictKeys [("a", PyVal.int 1)] →
      dictGet (mkGlobalContext [("a", PyVal.int 1)]) "settings" =
        some PyVal.settingsObj) ∧
    (∀ k v, dictGet [("a", PyVal.int 1)] k = some v →
      dictGet (mkGlobalContext [("a", PyVal.int 1)]) k = some v) :=
  contextProperty_settings_entry _ [("a", PyVal.int 1)] (by decide) rfl

/-- Claim C10: for a valid configuration whose root mapping has no `ENGINES`
key, the first access to the `engines` property assigns the built-in default
engine definition into the cached configuration mapping itself, so every
subsequent read of the cached configuration contains an `ENGINES` key equal
to the default engine definition. -/
theorem enginesAccess_writes_default_engines (cfg : RootConfig)
    (hvalid : checkRootKeys cfg = .ok cfg)
    (hno : dictGet cfg "ENGINES" = none) :
    enginesAccess cfg =
      .ok (dictInsert cfg "ENGINES" (.engineList DEFAULT_ENGINE_CONFIG),
           DEFAULT_ENGINE_CONFIG.map (fun b => (resolveAlias b, b))) ∧
    dictGet (dictInsert cfg "ENGINES" (.engineList DEFAULT_ENGINE_CONFIG))
        "ENGINES" = some (.engineList DEFAULT_ENGINE_CONFIG) := by
  have hread : dictGet (dictInsert cfg "ENGINES" (.engineList DEFAULT_ENGINE_CONFIG))
      "ENGINES" = some (.engineList DEFAULT_ENGINE_CONFIG) := by
    rw [dictGet_insert]
    simp
  refine ⟨?_, hread⟩
  have hchk : enginesCheck DEFAULT_ENGINE_CONFIG =
      .ok (DEFAULT_ENGINE_CONFIG.map (fun b => (resolveAlias b, b))) := rfl
  unfold enginesAccess
  rw [hvalid]
  simp only [hno, Option.isNone_none, if_true, hread, hchk]

/-- Witness for claim C10 at a concrete configuration with no `ENGINES`
key. -/
theorem enginesAccess_writes_default_engines_witness :
    enginesAccess cfgNoEngines =
      .ok (dictInsert cfgNoEngines "ENGINES" (.engineList DEFAULT_ENGINE_CONFIG),
           DEFAULT_ENGINE_CONFIG.map (fun b => (resolveAlias b, b))) ∧
    dictGet (dictInsert cfgNoEngines "ENGINES" (.engineList DEFAULT_ENGINE_CONFIG))
        "ENGINES" = some (.engineList DEFAULT_ENGINE_CONFIG) :=
  enginesAccess_writes_default_engines cfgNoEngines rfl rfl

/-- Claim C5: when two or more backend definitions resolve (explicitly via
`NAME` or derived from `BACKEND`) to the same alias, backend resolution
raises `ImproperlyConfigured` whose message joins the duplicated aliases
with a comma, and every alias that repeats appears in that list. -/
theorem enginesCheck_duplicate_alias_error (defs : List BackendDef)
    (h : ∃ a, 1 < (backendAliases defs).count a) :
    enginesCheck defs =
      .error (.improperlyConfigured (dupErrMsg (duplicateAliases defs))) ∧
    ∀ a, 1 < (backendAliases defs).count a → a ∈ duplicateAliases defs := by
  have hmem : ∀ a, 1 < (backendAliases defs).count a →
      a ∈ duplicateAliases defs := by
    intro a ha
    have h1 : a ∈ backendAliases defs :=
      List.count_pos_iff.mp (Nat.lt_trans Nat.zero_lt_one ha)
    have h2 : a ∈ distinctFirst (backendAliases defs) :=
      (mem_distinctFirst _ a).mpr h1
    unfold duplicateAliases
    rw [List.mem_filter, mem_sortByCountDesc]
    exact ⟨h2, by simpa using ha⟩
  obtain ⟨a, ha⟩ := h
  refine ⟨?_, hmem⟩
  have hne : duplicateAliases defs ≠ [] := List.ne_nil_of_mem (hmem a ha)
  unfold enginesCheck
  simp [hne]

/-- Witness for claim C5 at two backend definitions that both derive the
default alias `Eng` from their dotted paths. -/
theorem enginesCheck_duplicate_alias_error_witness :
    enginesCheck dupDefs =
      .error (.improperlyConfigured (dupErrMsg (duplicateAliases dupDefs))) ∧
    ∀ a, 1 < (backendAliases dupDefs).count a → a ∈ duplicateAliases dupDefs :=
  enginesCheck_duplicate_alias_error dupDefs ⟨"Eng", by decide⟩

/-- Claim C6: a configuration mapping with a root key outside
`{ENGINES, templates, context}` makes configuration access raise
`ImproperlyConfigured` naming the unrecognized keys, and a configuration
with only permitted root keys passes the check. -/
theorem checkRootKeys_spec (cfg : RootConfig) :
    ((∃ k, k ∈ dictKeys cfg ∧ k ∉ allowedRootKeys) →
      checkRootKeys cfg =
        .error (.improperlyConfigured
          ("Unrecognized STATIC_TEMPLATES configuration directives: " ++
           pyListRepr (unrecognizedKeys cfg))) ∧
      ∀ k, k ∈ dictKeys cfg → k ∉ allowedRootKeys → k ∈ unrecognizedKeys cfg) ∧
    ((∀ k ∈ dictKeys cfg, k ∈ allowedRootKeys) → checkRootKeys cfg = .ok cfg) := by
  have hmem : ∀ k, k ∈ dictKeys cfg → k ∉ allowedRootKeys →
      k ∈ unrecognizedKeys cfg := by
    intro k hk hnk
    unfold unrecognizedKeys
    rw [List.mem_filter]
    exact ⟨hk, by simpa using hnk⟩
  constructor
  · rintro ⟨k, hk, hnk⟩
    have hne : unrecognizedKeys cfg ≠ [] := List.ne_nil_of_mem (hmem k hk hnk)
    refine ⟨?_, hmem⟩
    unfold checkRootKeys
    simp [hne]
  · intro hall
    have hnil : unrecognizedKeys cfg = [] := by
      unfold unrecognizedKeys
      rw [List.filter_eq_nil_iff]
      intro k hk
      simpa using hall k hk
    unfold checkRootKeys
    simp [hnil]

/-- Witness for claim C6: a configuration with root key `bogus` is rejected
with the error naming it; a configuration with only the three permitted root
keys passes. -/
theorem checkRootKeys_spec_witness :
    (checkRootKeys cfgBadKey =
        .error (.improperlyConfigured
          ("Unrecognized STATIC_TEMPLATES configuration directives: " ++
           pyListRepr (unrecognizedKeys cfgBadKey))) ∧
      ∀ k, k ∈ dictKeys cfgBadKey → k ∉ allowedRootKeys →
        k ∈ unrecognizedKeys cfgBadKey) ∧
    checkRootKeys cfgGoodKeys = .ok cfgGoodKeys :=
  ⟨(checkRootKeys_spec cfgBadKey).1 ⟨"bogus", by decide, by decide⟩,
   (checkRootKeys_spec cfgGoodKeys).2 (by decide)⟩

/-- Claim C8: a template whose configured `dest` is a relative path, or not a
string or path-like value, makes `TemplateConfig` construction raise
`ImproperlyConfigured`; an absolute path-like `dest` is accepted and stored. -/
theorem templateConfig_dest_validation (name : String) (p : PPath)
    (ctx : Option CtxArg) :
    (p.isAbs = false →
      TemplateConfig.make name (some (.pyStr p)) ctx =
        .error (.improperlyConfigured
          ("In STATIC_TEMPLATES, template " ++ name ++ " dest must be absolute!")) ∧
      TemplateConfig.make name (some (.pyPath p)) ctx =
        .error (.improperlyConfigured
          ("In STATIC_TEMPLATES, template " ++ name ++ " dest must be absolute!"))) ∧
    (∀ t, TemplateConfig.make name (some (.pyOther t)) ctx =
      .error (.improperlyConfigured
        ("Template " ++ name ++ " \x27dest\x27 parameter in STATIC_TEMPLATES " ++
         "must be a string or path-like object, not " ++ t))) ∧
    (p.isAbs = true → (ctx = none ∨ ∃ d, ctx = some (.dict d)) →
      (∃ tc, TemplateConfig.make name (some (.pyStr p)) ctx = .ok tc ∧
        tc.dest = some p) ∧
      (∃ tc, TemplateConfig.make name (some (.pyPath p)) ctx = .ok tc ∧
        tc.dest = some p)) := by
  refine ⟨?_, ?_, ?_⟩
  · intro habs
    constructor <;>
      · unfold TemplateConfig.make
        simp only [habs]
        rfl
  · intro t
    unfold TemplateConfig.make
    rfl
  · intro habs hctx
    rcases hctx with rfl | ⟨d, rfl⟩
    · constructor <;>
        · refine ⟨{ name := name, dest := some p, ownContext := none }, ?_, rfl⟩
          unfold TemplateConfig.make
          simp only [habs]
          rfl
    · constructor <;>
        · refine ⟨{ name := name, dest := some p, ownContext := some d }, ?_, rfl⟩
          unfold TemplateConfig.make
          simp only [habs]
          rfl

/-- Witness for claim C8: a relative string `dest` is rejected, a non-path
value is rejected, and an absolute path `dest` is stored. -/
theorem templateConfig_dest_validation_witness :
    ((PPath.mk false ["rel"]).isAbs = false →
      TemplateConfig.make "t.html" (some (.pyStr (PPath.mk false ["rel"]))) none =
        .error (.improperlyConfigured
          ("In STATIC_TEMPLATES, template " ++ "t.html" ++ " dest must be absolute!")) ∧
      TemplateConfig.make "t.html" (some (.pyPath (PPath.mk false ["rel"]))) none =
        .error (.improperlyConfigured
          ("In STATIC_TEMPLATES, template " ++ "t.html" ++ " dest must be absolute!"))) ∧
    (∀ t, TemplateConfig.make "t.html" (some (.pyOther t)) none =
      .error (.improperlyConfigured
        ("Template " ++ "t.html" ++ " \x27dest\x27 parameter in STATIC_TEMPLATES " ++
         "must be a string or path-like object, not " ++ t))) ∧
    ((PPath.mk false ["rel"]).isAbs = true →
      ((PPath.mk false ["rel"]) = PPath.mk false ["rel"] ∨
        ∃ d, (none : Option CtxArg) = some (.dict d)) → True) ∧
    ((PPath.mk true ["abs", "t.html"]).isAbs = true →
      ((none : Option CtxArg) = none ∨ ∃ d, (none : Option CtxArg) = some (.dict d)) →
      (∃ tc, TemplateConfig.make "t.html"
          (some (.pyStr (PPath.mk true ["abs", "t.html"]))) none = .ok tc ∧
        tc.dest = some (PPath.mk true ["abs", "t.html"])) ∧
      (∃ tc, TemplateConfig.make "t.html"
          (some (.pyPath (PPath.mk true ["abs", "t.html"]))) none = .ok tc ∧
        tc.dest = some (PPath.mk true ["abs", "t.html"]))) := by
  refine ⟨?_, ?_, fun _ _ => trivial, ?_⟩
  · intro h
    exact (templateConfig_dest_validation "t.html" (PPath.mk false ["rel"]) none).1 h
  · exact (templateConfig_dest_validation "t.html" (PPath.mk false ["rel"]) none).2.1
  · intro h hc
    exact (templateConfig_dest_validation "t.html"
      (PPath.mk true ["abs", "t.html"]) none).2.2 h hc

/-- Claim C3: on a freshly constructed engine, the context passed to the
template's `render` method is `{settings: ...} ∪ global ∪ per-template ∪
call-time override`, later layers overriding earlier on key collision. -/
theorem renderToDisk_context_merge (g p o : Ctx)
    (hg : (dictKeys g).Nodup) (hp : (dictKeys p).Nodup) (ho : (dictKeys o).Nodup)
    (name : String) (backends : List Backend) (tmpl : Template)
    (chain : List String)
    (hfound : lookupTemplate backends name = (some tmpl, chain)) (d : PPath) :
    (renderToDisk (freshEngine g name p backends none) name (some o)
        (some d)).toOption.map (fun r => r.1.finalContext) =
      some (dictMerge (mkGlobalContext g) (dictUpdate p o)) ∧
    ∀ k, dictGet (dictMerge (mkGlobalContext g) (dictUpdate p o)) k =
      (dictGet o k).or ((dictGet p k).or ((dictGet g k).or
        (dictGet [("settings", PyVal.settingsObj)] k))) := by
  constructor
  · have hao : applyContextOverride (freshEngine g name p backends none) name
        (some o) =
        (dictUpdate p o,
         { freshEngine g name p backends none with
           templates := [(name,
             { name := name, dest := none, ownContext := some (dictUpdate p o) })] }) := by
      unfold applyContextOverride templateCfgOf freshEngine
      simp [dictGet, dictInsert]
    unfold renderToDisk
    have hbk : (freshEngine g name p backends none).backends = backends := rfl
    rw [hbk, hfound, hao]
    simp [resolveDest, templateCfgOf, freshEngine, dictGet]
    exact ⟨_, ⟨_, rfl⟩, rfl⟩
  · intro k
    have hup : (dictKeys (dictUpdate p o)).Nodup := nodup_dictKeys_update p o hp
    unfold dictMerge mkGlobalContext dictMerge
    rw [dictGet_update _ _ k hup, dictGet_update _ _ k ho,
      dictGet_update _ _ k hg, Option.or_assoc]

/-- Witness for claim C3 at the configuration of the claim: global
`{a:1, b:2}`, per-template `{b:3, c:4}`, call override `{c:5, d:6}`; the
final context is `{settings: ..., a:1, b:3, c:5, d:6}`. -/
theorem renderToDisk_context_merge_witness :
    ((renderToDisk (freshEngine [("a", PyVal.int 1), ("b", PyVal.int 2)]
          "app/t.html" [("b", PyVal.int 3), ("c", PyVal.int 4)] [c3Backend] none)
        "app/t.html" (some [("c", PyVal.int 5), ("d", PyVal.int 6)])
        (some outPath)).toOption.map (fun r => r.1.finalContext) =
      some (dictMerge (mkGlobalContext [("a", PyVal.int 1), ("b", PyVal.int 2)])
        (dictUpdate [("b", PyVal.int 3), ("c", PyVal.int 4)]
          [("c", PyVal.int 5), ("d", PyVal.int 6)])) ∧
     ∀ k, dictGet (dictMerge (mkGlobalContext [("a", PyVal.int 1), ("b", PyVal.int 2)])
        (dictUpdate [("b", PyVal.int 3), ("c", PyVal.int 4)]
          [("c", PyVal.int 5), ("d", PyVal.int 6)])) k =
      (dictGet [("c", PyVal.int 5), ("d", PyVal.int 6)] k).or
        ((dictGet [("b", PyVal.int 3), ("c", PyVal.int 4)] k).or
          ((dictGet [("a", PyVal.int 1), ("b", PyVal.int 2)] k).or
            (dictGet [("settings", PyVal.settingsObj)] k)))) ∧
    dictMerge (mkGlobalContext [("a", PyVal.int 1), ("b", PyVal.int 2)])
        (dictUpdate [("b", PyVal.int 3), ("c", PyVal.int 4)]
          [("c", PyVal.int 5), ("d", PyVal.int 6)]) =
      [("settings", PyVal.settingsObj), ("a", PyVal.int 1), ("b", PyVal.int 3),
       ("c", PyVal.int 5), ("d", PyVal.int 6)] :=
  ⟨renderToDisk_context_merge
      [("a", PyVal.int 1), ("b", PyVal.int 2)]
      [("b", PyVal.int 3), ("c", PyVal.int 4)]
      [("c", PyVal.int 5), ("d", PyVal.int 6)]
      (by decide) (by decide) (by decide)
      "app/t.html" [c3Backend] c3Template [] rfl outPath,
   rfl⟩

/-- Claim C4: the output destination of `render_to_disk` is the first
defined of the call-time `dest` argument, the configured `dest`, the owning
app's `static` directory joined with the template name, and `STATIC_ROOT`
joined with the template name; with none of the four defined the call
raises `ImproperlyConfigured` naming the template; otherwise the resolved
path is returned. -/
theorem renderToDisk_dest_precedence (st : EngineState) (templateName : String)
    (tmpl : Template) (chain : List String) (context : Option Ctx)
    (hfound : lookupTemplate st.backends templateName = (some tmpl, chain)) :
    (∀ d, (renderToDisk st templateName context (some d)).toOption.map
        (fun r => r.1.dest) = some d) ∧
    (∀ cd, (templateCfgOf st templateName).dest = some cd →
      (renderToDisk st templateName context none).toOption.map
        (fun r => r.1.dest) = some cd) ∧
    (∀ a, (templateCfgOf st templateName).dest = none →
      tmpl.originApp = some a →
      (renderToDisk st templateName context none).toOption.map
        (fun r => r.1.dest) = some ((a.path.join "static").join templateName)) ∧
    (∀ root, (templateCfgOf st templateName).dest = none →
      tmpl.originApp = none → st.staticRoot = some root →
      (renderToDisk st templateName context none).toOption.map
        (fun r => r.1.dest) = some (root.join templateName)) ∧
    ((templateCfgOf st templateName).dest = none → tmpl.originApp = none →
      st.staticRoot = none →
      renderToDisk st templateName context none =
        .error (.improperlyConfigured (noDestErrMsg templateName))) := by
  rcases hao : applyContextOverride st templateName context with ⟨ctx, st'⟩
  refine ⟨?_, ?_, ?_, ?_, ?_⟩
  · intro d
    unfold renderToDisk
    rw [hfound]
    simp [resolveDest, hao]
    exact ⟨_, ⟨_, rfl⟩, rfl⟩
  · intro cd hcd
    unfold renderToDisk
    rw [hfound]
    simp [resolveDest, hcd, hao]
    exact ⟨_, ⟨_, rfl⟩, rfl⟩
  · intro a hcd happ
    unfold renderToDisk
    rw [hfound]
    simp [resolveDest, hcd, happ, hao]
    exact ⟨_, ⟨_, rfl⟩, rfl⟩
  · intro root hcd happ hroot
    unfold renderToDisk
    rw [hfound]
    simp [resolveDest, hcd, happ, hroot, hao]
    exact ⟨_, ⟨_, rfl⟩, rfl⟩
  · intro hcd happ hroot
    unfold renderToDisk
    rw [hfound]
    simp [resolveDest, hcd, happ, hroot, hao]

/-- Witness for claim C4: the call-time `dest` wins over a configured
`dest`; with no call-time `dest` the configured one is used; an app-owned
template resolves under the app's `static` directory; and with nothing
defined the call fails naming the template. -/
theorem renderToDisk_dest_precedence_witness :
    ((renderToDisk destState "t.html" none (some outPath)).toOption.map
        (fun r => r.1.dest) = some outPath) ∧
    ((renderToDisk destState "t.html" none none).toOption.map
        (fun r => r.1.dest) = some configuredDest) ∧
    (renderToDisk noDestState "t.html" none none =
      .error (.improperlyConfigured (noDestErrMsg "t.html"))) :=
  ⟨(renderToDisk_dest_precedence destState "t.html" plainT [] none rfl).1 outPath,
   (renderToDisk_dest_precedence destState "t.html" plainT [] none rfl).2.1
     configuredDest rfl,
   (renderToDisk_dest_precedence noDestState "t.html" plainT [] none rfl).2.2.2.2
     rfl rfl rfl⟩

end RenderStatic
